import Mathlib

/-!
Shallow embedding of the monitored external-process execution and
classification pipeline of the provers-benchmark repository, together with
theorems checking the natural-language specification against it.

The main embedded sources are:
  provers_benchmark/benchmark.py        (run_benchmark)
  provers_benchmark/utils.py            (build_command, command_name, executable_name)
  provers_benchmark/statistics/stats.py (ExecutionStatistics, SATStatus, OutputStatistics)
  provers_benchmark/tests/test_run.py   (TestRun: classification step, filter_inputs)
  src/stats.py, src/test.py             (legacy pipeline, in namespace Legacy)

Wall-clock instants and durations (Python floats) are modelled as Int; byte
streams and text as String; fallible or initially unset fields as Option.
-/

/-- The SATStatus enumeration of provers_benchmark/statistics/stats.py
(lines 104-111).  The member UNKOWN is spelled exactly as in the source; its
value there is the string "unknown". -/
inductive SATStatus where
  | ERROR
  | SATISFIABLE
  | UNSATISFIABLE
  | UNKOWN
  | TIMEOUT
  | OUT_OF_MEMORY
deriving DecidableEq

/-- The InputMode enumeration of provers_benchmark/config.py (lines 42-44). -/
inductive InputMode where
  | STDIN
  | ARGUMENT
deriving DecidableEq

/-- The OutputMode enumeration of provers_benchmark/config.py (lines 37-39). -/
inductive OutputMode where
  | STDOUT
  | ARGUMENT
deriving DecidableEq

/-- The constant INPUT_PATH_TEMPLATE of provers_benchmark/config.py. -/
def INPUT_PATH_TEMPLATE : String := "$INPUT_PATH"

/-- The constant OUTPUT_PATH_TEMPLATE of provers_benchmark/config.py. -/
def OUTPUT_PATH_TEMPLATE : String := "$OUTPUT_PATH"

/-- Left-to-right, non-overlapping replacement of a pattern in a character
list, as performed by the Python str.replace method used in
provers_benchmark/utils.py build_command.  The fuel argument (instantiated
with the length of the subject) only serves totality; when the pattern is
empty the subject is returned unchanged (build_command only ever replaces
the non-empty placeholder constants). -/
def replaceFuel (pat rep : List Char) : Nat → List Char → List Char
  | _, [] => []
  | 0, s => s
  | Nat.succ n, c :: rest =>
    if pat.isPrefixOf (c :: rest) ∧ pat ≠ [] then
      rep ++ replaceFuel pat rep n ((c :: rest).drop pat.length)
    else
      c :: replaceFuel pat rep n rest

/-- Python str.replace (replace every non-overlapping occurrence, scanning
left to right) on String. -/
def strReplace (s pat rep : String) : String :=
  String.mk (replaceFuel pat.data rep.data s.data.length s.data)

/-- Python substring membership test (the in operator on str), used by the
solver output classifiers. -/
def listHasSub (pat : List Char) : List Char → Bool
  | [] => pat.isEmpty
  | c :: rest => pat.isPrefixOf (c :: rest) || listHasSub pat rest

/-- String form of listHasSub: strContains s pat is the Python test
pat in s. -/
def strContains (s pat : String) : Bool :=
  listHasSub pat.data s.data

/-- ASCII lowering of one character, as Python str.lower acts on the ASCII
solver names compared in provers_benchmark/parsers/parsers.py. -/
def charLower (c : Char) : Char :=
  if 65 ≤ c.toNat ∧ c.toNat ≤ 90 then Char.ofNat (c.toNat + 32) else c

/-- Python str.lower restricted to ASCII strings. -/
def strLower (s : String) : String :=
  String.mk (s.data.map charLower)

/-- The function build_command of provers_benchmark/utils.py (lines 31-40):
substitute $INPUT_PATH when input_mode is ARGUMENT and $OUTPUT_PATH when
output_mode is ARGUMENT.  A none result models the Python TypeError raised
by str.replace when the corresponding file argument is None while its mode
demands substitution. -/
def build_command (command : String) (input_file : Option String)
    (input_mode : Option InputMode) (output_file : Option String)
    (output_mode : Option OutputMode) : Option String :=
  (if input_mode = some InputMode.ARGUMENT then
      input_file.map (fun f => strReplace command INPUT_PATH_TEMPLATE f)
    else some command).bind
    (fun c =>
      if output_mode = some OutputMode.ARGUMENT then
        output_file.map (fun f => strReplace c OUTPUT_PATH_TEMPLATE f)
      else some c)

/-- The function command_name of provers_benchmark/utils.py: first
whitespace-separated token of the command (command.split()[0]). -/
def command_name (command : String) : String :=
  String.mk ((command.data.dropWhile Char.isWhitespace).takeWhile (fun c => !c.isWhitespace))

/-- The function executable_name of provers_benchmark/utils.py:
os.path.basename of command_name, i.e. the part after the last slash. -/
def executable_name (command : String) : String :=
  String.mk (((command_name command).data.reverse.takeWhile (fun c => c ≠ '/')).reverse)

/-- How the child process standard input is wired in run_benchmark
(provers_benchmark/benchmark.py line 45): the null device, or a handle on
the input file whose bytes are delivered to the child. -/
inductive StdinSource where
  | devnull
  | fileStream (path : String)
deriving DecidableEq

/-- The stdin selection of provers_benchmark/benchmark.py line 45:
subprocess.DEVNULL when input_mode is ARGUMENT, otherwise open(input_path). -/
def stdinFor (input_mode : InputMode) (input_path : String) : StdinSource :=
  if input_mode = InputMode.ARGUMENT then StdinSource.devnull
  else StdinSource.fileStream input_path

/-- Modelled from the spec: the Prover9 output classifier
(provers_benchmark/parsers/output_parsers/prover9_parser.py is not in the
tree).  Spec section 4.4 and the inline legacy classifier in src/test.py give
the markers THEOREM PROVED / SEARCH FAILED; markers take precedence over the
return code, a non-zero return code with no marker yields ERROR, and
classification is total (UNKNOWN otherwise). -/
def prover9Verdict (returncode : Int) (stdout stderr : Option String) : SATStatus :=
  if strContains (stdout.getD ("")) ("THEOREM PROVED") then SATStatus.SATISFIABLE
  else if strContains (stdout.getD ("")) ("SEARCH FAILED") then SATStatus.UNSATISFIABLE
  else if returncode ≠ 0 then SATStatus.ERROR
  else SATStatus.UNKOWN

/-- Modelled from the spec: the SPASS output classifier
(provers_benchmark/parsers/output_parsers/spass_parser.py is not in the
tree).  The proof-found marker comes from spec section 4.4 and the inline
legacy classifier in src/test.py. -/
def spassVerdict (returncode : Int) (stdout stderr : Option String) : SATStatus :=
  if strContains (stdout.getD ("")) ("SPASS beiseite: Proof found") then SATStatus.SATISFIABLE
  else if returncode ≠ 0 then SATStatus.ERROR
  else SATStatus.UNKOWN

/-- Modelled from the spec: the InkreSAT output classifier
(provers_benchmark/parsers/output_parsers/inkresat_parser.py is not in the
tree).  The spec names no textual marker for this solver, so only the
generic rules of section 4.4 apply: non-zero return code yields ERROR,
otherwise UNKNOWN; classification is total. -/
def inkresatVerdict (returncode : Int) (stdout stderr : Option String) : SATStatus :=
  if returncode ≠ 0 then SATStatus.ERROR
  else SATStatus.UNKOWN

/-- The classifier registry get_output_parser of
provers_benchmark/parsers/parsers.py (lines 60-75): keys are the lowercase
solver names prover9, spass, inkresat; anything else has no classifier.
benchmark.py reaches it under the alias find_output_parser. -/
def getOutputClassifier (solver : String) :
    Option (Int → Option String → Option String → SATStatus) :=
  if strLower solver = "prover9" then some prover9Verdict
  else if strLower solver = "spass" then some spassVerdict
  else if strLower solver = "inkresat" then some inkresatVerdict
  else none

/-- The OutputStatistics dataclass of provers_benchmark/statistics/stats.py
(lines 114-118).  stderr and stdout are Option String because run_benchmark
later overwrites them with None under the save flags; they start as the
empty string and status starts as UNKOWN. -/
structure OutputStatistics where
  status : SATStatus := SATStatus.UNKOWN
  stderr : Option String := some ("")
  stdout : Option String := some ("")
deriving DecidableEq

/-- One resource sample taken from the psutil process handle: resident set
size, io counters, cpu times, and whether the OS allowed reading the io
counters (psutil.AccessDenied otherwise). -/
structure ProcSample where
  rss : Nat
  read_bytes : Nat
  read_chars : Nat
  write_bytes : Nat
  cpu_times : Int
  io_allowed : Bool
deriving DecidableEq

/-- The ExecutionStatistics dataclass of
provers_benchmark/statistics/stats.py (lines 11-19). -/
structure ExecutionStatistics where
  cpu_time : Option Int := none
  execution_time : Int := 0
  peak_memory : Option Nat := none
  disk_reads : Option Nat := none
  disk_writes : Option Nat := none
  returncode : Option Int := none
deriving DecidableEq

/-- The method ExecutionStatistics.update of
provers_benchmark/statistics/stats.py (lines 21-33): store the io counters
unless the OS denies access (disk_writes adds read_chars exactly as the
source does), ratchet peak_memory up to the sampled rss when it is unset or
smaller, and overwrite cpu_time. -/
def ExecutionStatistics.update (s : ExecutionStatistics) (p : ProcSample) :
    ExecutionStatistics :=
  { cpu_time := some p.cpu_times
    execution_time := s.execution_time
    peak_memory :=
      match s.peak_memory with
      | none => some p.rss
      | some m => if m < p.rss then some p.rss else some m
    disk_reads := if p.io_allowed then some (p.read_bytes + p.read_chars) else s.disk_reads
    disk_writes := if p.io_allowed then some (p.write_bytes + p.read_chars) else s.disk_writes
    returncode := s.returncode }

/-- The 100 MiB free-memory floor of the run loop
(provers_benchmark/benchmark.py line 56). -/
def oomFloor : Nat := 100 * 1024 * 1024

/-- One iteration of the run_benchmark polling loop as observed from the
environment: whether proc.poll() reported exit, the value of
proc.exec_stats.execution_time at the timeout guard, the free system memory,
whether more than one second passed since the last drain, and the chunks the
child delivered to each stream reader during the iteration.  Modelled from
the spec where the source is missing: execution_time during the run is
maintained by statistics/monitored_process.py, which is not in the tree; the
spec (sections 2 and 4.3) specifies it as the elapsed wall-clock time since
launch. -/
structure Tick where
  exited : Bool
  execTime : Int
  freeMem : Nat
  drainDue : Bool
  newOut : List String
  newErr : List String
deriving DecidableEq

/-- State of the run_benchmark capture loop.  stdout and stderr are the
fields of out_stats; pendOut and pendErr are the chunks queued inside the
two NonBlockingStreamReaders and not yet returned by readall (modelled from
the spec: non_blocking_stream_reader.py is not in the tree, and spec
sections 4.1 and 9 specify readall as strictly additive, returning each
queued chunk exactly once); logOut and logErr record every chunk readall
ever returned, in call order; arrOut and arrErr record every chunk the
child ever wrote. -/
structure LoopState where
  status : SATStatus
  stdout : String
  stderr : String
  pendOut : List String
  pendErr : List String
  logOut : List String
  logErr : List String
  arrOut : List String
  arrErr : List String
  killed : Bool
deriving DecidableEq

/-- The loop state at the top of run_benchmark: OutputStatistics() defaults
and empty reader queues. -/
def initLoopState : LoopState :=
  { status := SATStatus.UNKOWN, stdout := "", stderr := "", pendOut := [], pendErr := []
    logOut := [], logErr := [], arrOut := [], arrErr := [], killed := false }

/-- Delivery of one iteration's new chunks into the reader queues. -/
def tickArrive (t : Tick) (s : LoopState) : LoopState :=
  { s with pendOut := s.pendOut ++ t.newOut, pendErr := s.pendErr ++ t.newErr
           arrOut := s.arrOut ++ t.newOut, arrErr := s.arrErr ++ t.newErr }

/-- The periodic in-loop drain of provers_benchmark/benchmark.py lines 62-65:
out_stats.stdout and out_stats.stderr are ASSIGNED (not appended) the join of
the chunks readall returns, exactly as the source's = does. -/
def drainStep (s : LoopState) : LoopState :=
  { s with stdout := String.join s.pendOut, stderr := String.join s.pendErr
           logOut := s.logOut ++ s.pendOut, logErr := s.logErr ++ s.pendErr
           pendOut := [], pendErr := [] }

/-- The while loop of run_benchmark (provers_benchmark/benchmark.py lines
51-65): stop when poll() reports exit; kill and record TIMEOUT when
execution_time exceeds the timeout; kill and record OUT_OF_MEMORY when free
memory is below the floor; drain both readers when more than a second has
passed since the last drain. -/
def runLoop (timeout : Int) : List Tick → LoopState → LoopState
  | [], s => s
  | t :: rest, s =>
    if t.exited then tickArrive t s
    else if timeout < t.execTime then
      { tickArrive t s with status := SATStatus.TIMEOUT, killed := true }
    else if t.freeMem < oomFloor then
      { tickArrive t s with status := SATStatus.OUT_OF_MEMORY, killed := true }
    else if t.drainDue then runLoop timeout rest (drainStep (tickArrive t s))
    else runLoop timeout rest (tickArrive t s)

/-- The final drain of provers_benchmark/benchmark.py lines 66-68: after the
loop, any chunks still queued (plus the tail the child wrote after the last
iteration) are APPENDED to out_stats.stdout and out_stats.stderr with +=. -/
def finalizeCapture (tailOut tailErr : List String) (s : LoopState) : LoopState :=
  { s with stdout := s.stdout ++ String.join (s.pendOut ++ tailOut)
           stderr := s.stderr ++ String.join (s.pendErr ++ tailErr)
           logOut := s.logOut ++ (s.pendOut ++ tailOut)
           logErr := s.logErr ++ (s.pendErr ++ tailErr)
           arrOut := s.arrOut ++ tailOut, arrErr := s.arrErr ++ tailErr
           pendOut := [], pendErr := [] }

/-- The whole capture phase of run_benchmark: the polling loop followed by
the final drain. -/
def runCapture (timeout : Int) (ticks : List Tick) (tailOut tailErr : List String) :
    LoopState :=
  finalizeCapture tailOut tailErr (runLoop timeout ticks initLoopState)

/-- Result of the classification step: the updated OutputStatistics, whether
a classifier was invoked, and whether the missing-classifier warning was
logged. -/
structure ClassifyResult where
  stats : OutputStatistics
  invoked : Bool
  warned : Bool
deriving DecidableEq

/-- The classification step guarded by the supervisor statuses
(provers_benchmark/benchmark.py lines 70-73 and
provers_benchmark/tests/test_run.py lines 123-131): when the status is not
TIMEOUT or OUT_OF_MEMORY, look the classifier up by executable name and let
it assign the status from the return code and the captured streams; when no
classifier is registered, log a warning and leave the status unchanged
(this none branch is the one of test_run.py, where the registry lookup is
in the tree). -/
def classifyStep (executable : String) (returncode : Int) (o : OutputStatistics) :
    ClassifyResult :=
  if o.status = SATStatus.OUT_OF_MEMORY ∨ o.status = SATStatus.TIMEOUT then
    { stats := o, invoked := false, warned := false }
  else
    match getOutputClassifier executable with
    | some classify =>
      { stats := { o with status := classify returncode o.stdout o.stderr }
        invoked := true, warned := false }
    | none => { stats := o, invoked := false, warned := true }

/-- The save-flag block of provers_benchmark/benchmark.py lines 74-77,
exactly as written in the source: BOTH branches assign out_stats.stdout, the
second one (save_stderr) included. -/
def applySaveFlags (save_stdout save_stderr : Bool) (o : OutputStatistics) :
    OutputStatistics :=
  let o1 := if save_stdout then o else { o with stdout := none }
  if save_stderr then o1 else { o1 with stdout := none }

/-- Result of one whole run_benchmark call: the final OutputStatistics, the
classification flags, and the capture-loop state (kill flag and chunk
logs) for stating properties about it. -/
structure RunResult where
  stats : OutputStatistics
  invoked : Bool
  warned : Bool
  capture : LoopState
deriving DecidableEq

/-- The function run_benchmark of provers_benchmark/benchmark.py (lines
41-84): run the capture loop over the given environment trace, classify
unless the supervisor already fixed the status, then apply the save flags.
The command is the already-built command string; returncode is the exited
process return code used by the classifier. -/
def run_benchmark (command : String) (save_stdout save_stderr : Bool) (timeout : Int)
    (ticks : List Tick) (tailOut tailErr : List String) (returncode : Int) : RunResult :=
  let ls := runCapture timeout ticks tailOut tailErr
  let c := classifyStep (executable_name command) returncode
    { status := ls.status, stderr := some ls.stderr, stdout := some ls.stdout }
  { stats := applySaveFlags save_stdout save_stderr c.stats
    invoked := c.invoked, warned := c.warned, capture := ls }

namespace Legacy

/-- The ExecutionStatistics dataclass of src/stats.py (lines 14-37).  The
field update_io models the private _update_io flag set by disable_io. -/
structure ExecutionStatistics where
  cpu_time : Option Int := none
  execution_time : Int := 0
  peak_memory : Option Nat := none
  disk_reads : Option Nat := none
  disk_writes : Option Nat := none
  update_io : Bool := true
deriving DecidableEq

/-- The method ExecutionStatistics.update of src/stats.py (lines 27-37):
store the io counters when _update_io is set, ratchet peak_memory up to the
sampled rss when unset or smaller, overwrite cpu_time, and leave
execution_time alone. -/
def ExecutionStatistics.update (s : ExecutionStatistics) (p : ProcSample) :
    ExecutionStatistics :=
  { cpu_time := some p.cpu_times
    execution_time := s.execution_time
    peak_memory :=
      match s.peak_memory with
      | none => some p.rss
      | some m => if m < p.rss then some p.rss else some m
    disk_reads := if s.update_io then some (p.read_bytes + p.read_chars) else s.disk_reads
    disk_writes := if s.update_io then some (p.write_bytes + p.read_chars) else s.disk_writes
    update_io := s.update_io }

/-- One observation handed to MonitoredProcess.poll: the return code the
underlying subprocess.Popen.poll() reports (none while the process is
alive) and the psutil sample poll would take if it is. -/
structure PollObs where
  rc : Option Int
  sample : ProcSample
deriving DecidableEq

/-- The MonitoredProcess of src/stats.py (lines 40-71): the statistics being
accumulated and the launch timestamp.  The OS process handle itself lives in
the observations fed to poll. -/
structure MonitoredProcess where
  exec_stats : ExecutionStatistics
  start : Int
deriving DecidableEq

/-- The method MonitoredProcess.poll of src/stats.py (lines 55-62): when the
process has exited return its code untouched, otherwise take one resource
sample with ExecutionStatistics.update and return none.  It never touches
execution_time. -/
def MonitoredProcess.poll (m : MonitoredProcess) (o : PollObs) :
    MonitoredProcess × Option Int :=
  match o.rc with
  | some r => (m, some r)
  | none => ({ m with exec_stats := m.exec_stats.update o.sample }, none)

/-- The constructor of MonitoredProcess (src/stats.py lines 42-53): fresh
ExecutionStatistics (io sampling disabled when psutil denies access), the
recorded start instant, and one initial poll. -/
def MonitoredProcess.init (start : Int) (io_denied : Bool) (firstObs : PollObs) :
    MonitoredProcess :=
  (MonitoredProcess.poll { exec_stats := { update_io := !io_denied }, start := start }
    firstObs).1

/-- A sequence of polls of the running process, as driven by the loop in
src/test.py line 243. -/
def MonitoredProcess.pollMany (m : MonitoredProcess) (obs : List PollObs) :
    MonitoredProcess :=
  obs.foldl (fun m o => (m.poll o).1) m

/-- The method MonitoredProcess.__exit__ of src/stats.py (lines 70-71): the
only assignment to execution_time, now - start when the context manager
exits. -/
def MonitoredProcess.exitCtx (m : MonitoredProcess) (now : Int) : MonitoredProcess :=
  { m with exec_stats := { m.exec_stats with execution_time := now - m.start } }

/-- The TestInput dataclass of src/test.py restricted to the fields
TestCase.filter_inputs reads. -/
structure TestInput where
  name : String
  format : String
  files : List String := []
deriving DecidableEq

/-- The TestCase dataclass of src/test.py (lines 171-178); TestRun of
provers_benchmark/tests/test_run.py (lines 24-32) has the same fields and
the same methods embedded below. -/
structure TestCase where
  name : String
  options : List String
  format : String
  input_after_option : Option String := none
  input_as_last_argument : Bool := false
  include_only : List String := []
  exclude : List String := []
deriving DecidableEq

/-- Python truthiness of an optional string field. -/
def truthyStrOpt : Option String → Bool
  | none => false
  | some s => !s.isEmpty

/-- The __post_init__ checks of TestCase (src/test.py lines 180-186) and
TestRun (test_run.py lines 34-39): true when construction succeeds, false
when one of the two mutual-exclusion checks raises BenchmarkException. -/
def TestCase.post_init_ok (tc : TestCase) : Bool :=
  !(truthyStrOpt tc.input_after_option && tc.input_as_last_argument) &&
    !(!tc.exclude.isEmpty && !tc.include_only.isEmpty)

/-- The method TestCase.filter_inputs of src/test.py (lines 206-214),
identical in TestRun.filter_inputs (test_run.py lines 60-69), exactly as the
source writes it: the exclusion branch tests membership of each input name
in include_only, not in exclude. -/
def TestCase.filter_inputs (tc : TestCase) (test_inputs : List TestInput) :
    List TestInput :=
  if tc.include_only.isEmpty && tc.exclude.isEmpty then test_inputs
  else if !tc.include_only.isEmpty then
    test_inputs.filter (fun t => tc.include_only.contains t.name)
  else if !tc.exclude.isEmpty then
    test_inputs.filter (fun t => !(tc.include_only.contains t.name))
  else []

/-- The inline verdict assignment of TestCase.run (src/test.py lines
241-256): ERROR on a non-zero return code, else the prover9 or SPASS marker
checks; every other combination leaves out_stats.status at its
OutputStatistics default, which in src/stats.py line 125 is None (modelled
as none). -/
def classifyOutput (executable : String) (returncode : Int) (output : String) :
    Option SATStatus :=
  if returncode ≠ 0 then some SATStatus.ERROR
  else if executable = "prover9" then
    if strContains output ("THEOREM PROVED") then some SATStatus.SATISFIABLE
    else if strContains output ("SEARCH FAILED") then some SATStatus.UNSATISFIABLE
    else none
  else if executable = "SPASS" then
    if strContains output ("nSPASS beiseite: Proof found") then some SATStatus.SATISFIABLE
    else none
  else none

end Legacy

theorem aux_applySaveFlags_status (a b : Bool) (o : OutputStatistics) :
    (applySaveFlags a b o).status = o.status := by
  cases a <;> cases b <;> rfl

theorem aux_applySaveFlags_stderr (a b : Bool) (o : OutputStatistics) :
    (applySaveFlags a b o).stderr = o.stderr := by
  cases a <;> cases b <;> rfl

theorem aux_update_peak_mono (s : ExecutionStatistics) (p : ProcSample) :
    s.peak_memory.getD 0 ≤ ((s.update p).peak_memory).getD 0 := by
  cases h : s.peak_memory <;> simp [ExecutionStatistics.update, h]
  split <;> simp <;> omega

/-- C5: each resource sample of ExecutionStatistics.update sets peak_memory
to the maximum of the previous peak and the sampled resident-set size, so
the peak is non-negative and never decreases across any sequence of
samples within one run. -/
theorem execution_statistics_peak_memory_monotone
    (s : ExecutionStatistics) (p : ProcSample) (ps : List ProcSample) :
    (s.update p).peak_memory =
      some (match s.peak_memory with
            | none => p.rss
            | some m => max m p.rss) ∧
    s.peak_memory.getD 0 ≤ ((s.update p).peak_memory).getD 0 ∧
    s.peak_memory.getD 0 ≤ ((ps.foldl ExecutionStatistics.update s).peak_memory).getD 0 ∧
    0 ≤ ((s.update p).peak_memory).getD 0 := by
  refine ⟨?_, aux_update_peak_mono s p, ?_, Nat.zero_le _⟩
  · cases h : s.peak_memory <;> simp [ExecutionStatistics.update, h]
    split <;> simp <;> omega
  · induction ps generalizing s with
    | nil => exact le_refl _
    | cons q qs ih => exact le_trans (aux_update_peak_mono s q) (ih (s.update q))

/-- C6: build_command substitutes the $INPUT_PATH placeholder with the input
file path exactly when the input mode is ARGUMENT, in which case the child
standard input is the null device; in STDIN mode the command is left
untouched and the input file is piped to the child standard input.  The last
two conjuncts instantiate the spec scenario at input file /tmp/a.p. -/
theorem build_command_argument_vs_stdin (command inputPath : String) :
    build_command command (some inputPath) (some InputMode.ARGUMENT) none none =
      some (strReplace command INPUT_PATH_TEMPLATE inputPath) ∧
    stdinFor InputMode.ARGUMENT inputPath = StdinSource.devnull ∧
    build_command command (some inputPath) (some InputMode.STDIN) none none = some command ∧
    stdinFor InputMode.STDIN inputPath = StdinSource.fileStream inputPath ∧
    build_command ("./prover " ++ INPUT_PATH_TEMPLATE) (some ("/tmp/a.p"))
      (some InputMode.ARGUMENT) none none = some ("./prover /tmp/a.p") ∧
    build_command ("./prover " ++ INPUT_PATH_TEMPLATE) (some ("/tmp/a.p"))
      (some InputMode.STDIN) none none = some ("./prover " ++ INPUT_PATH_TEMPLATE) := by
  refine ⟨?_, rfl, ?_, rfl, by decide, by decide⟩
  · simp [build_command]
  · simp [build_command]

/-- C7: the save-flag block of run_benchmark evaluated with
save_stdout = true and save_stderr = false.  The source assigns
out_stats.stdout = None in the save_stderr branch, so the recorded stdout is
destroyed and the recorded stderr is kept, the opposite of clearing stderr
while leaving stdout unchanged. -/
theorem save_stderr_flag_clears_stdout (st : SATStatus) (e o : String) :
    applySaveFlags true false { status := st, stderr := some e, stdout := some o } =
      { status := st, stderr := some e, stdout := none } ∧
    applySaveFlags true false { status := st, stderr := some e, stdout := some o } ≠
      { status := st, stderr := none, stdout := some o } := by
  refine ⟨rfl, ?_⟩
  simp [applySaveFlags]

/-- C8: in the legacy pipeline of src/test.py, a run whose process exits
with return code 0 and whose output has no recognized marker leaves the
verdict unset (OutputStatistics.status stays None), while the current
OutputStatistics of provers_benchmark defaults the status to the definite
enumeration member UNKOWN. -/
theorem legacy_run_can_leave_verdict_unset :
    Legacy.classifyOutput ("prover9") 0 ("run finished without any marker") = none ∧
    ({} : OutputStatistics).status = SATStatus.UNKOWN := by
  exact ⟨by decide, rfl⟩

/-- C9: a TestCase that passed the __post_init__ mutual-exclusion check and
has a non-empty exclude list necessarily has an empty include_only list, and
its filter_inputs returns the given inputs unchanged, because the exclusion
branch tests membership in include_only rather than exclude. -/
theorem filter_inputs_exclude_is_noop
    (tc : Legacy.TestCase) (test_inputs : List Legacy.TestInput)
    (hok : tc.post_init_ok = true) (hne : tc.exclude ≠ []) :
    tc.include_only = [] ∧ tc.filter_inputs test_inputs = test_inputs := by
  have hexc : tc.exclude.isEmpty = false := by
    cases hE : tc.exclude with
    | nil => exact absurd hE hne
    | cons a l => rfl
  have hinc : tc.include_only = [] := by
    cases hI : tc.include_only with
    | nil => rfl
    | cons a l =>
      exfalso
      unfold Legacy.TestCase.post_init_ok at hok
      rw [hexc, hI] at hok
      simp at hok
  refine ⟨hinc, ?_⟩
  simp [Legacy.TestCase.filter_inputs, hinc, hexc]

theorem filter_inputs_exclude_is_noop_witness :
    Legacy.TestCase.filter_inputs
      { name := "t", options := [], format := "TPTP", exclude := [("skip")] }
      [{ name := "a", format := "TPTP" }] = [{ name := "a", format := "TPTP" }] :=
  (filter_inputs_exclude_is_noop
    { name := "t", options := [], format := "TPTP", exclude := [("skip")] }
    [{ name := "a", format := "TPTP" }] (by decide) (by decide)).2

theorem aux_legacy_update_et (s : Legacy.ExecutionStatistics) (p : ProcSample) :
    (s.update p).execution_time = s.execution_time := rfl

theorem aux_legacy_poll_et (m : Legacy.MonitoredProcess) (o : Legacy.PollObs) :
    ((m.poll o).1).exec_stats.execution_time = m.exec_stats.execution_time := by
  cases h : o.rc <;> simp [Legacy.MonitoredProcess.poll, h, aux_legacy_update_et]

theorem aux_legacy_poll_start (m : Legacy.MonitoredProcess) (o : Legacy.PollObs) :
    ((m.poll o).1).start = m.start := by
  cases h : o.rc <;> simp [Legacy.MonitoredProcess.poll, h]

theorem aux_legacy_pollMany_et (obs : List Legacy.PollObs) :
    ∀ m : Legacy.MonitoredProcess,
      (m.pollMany obs).exec_stats.execution_time = m.exec_stats.execution_time := by
  induction obs with
  | nil => intro m; rfl
  | cons o obs ih =>
    intro m
    calc (Legacy.MonitoredProcess.pollMany (m.poll o).1 obs).exec_stats.execution_time
        = ((m.poll o).1).exec_stats.execution_time := ih _
      _ = m.exec_stats.execution_time := aux_legacy_poll_et m o

theorem aux_legacy_pollMany_start (obs : List Legacy.PollObs) :
    ∀ m : Legacy.MonitoredProcess, (m.pollMany obs).start = m.start := by
  induction obs with
  | nil => intro m; rfl
  | cons o obs ih =>
    intro m
    calc (Legacy.MonitoredProcess.pollMany (m.poll o).1 obs).start
        = ((m.poll o).1).start := ih _
      _ = m.start := aux_legacy_poll_start m o

/-- C10: in the legacy MonitoredProcess of src/stats.py, execution_time
stays 0 from launch through any sequence of polls of the live process, and
the context-manager exit assigns it now - start. -/
theorem legacy_execution_time_zero_until_exit
    (start : Int) (io_denied : Bool) (firstObs : Legacy.PollObs)
    (obs : List Legacy.PollObs) (now : Int) :
    ((Legacy.MonitoredProcess.init start io_denied firstObs).pollMany obs).exec_stats.execution_time = 0 ∧
    (((Legacy.MonitoredProcess.init start io_denied firstObs).pollMany obs).exitCtx now).exec_stats.execution_time = now - start := by
  constructor
  · rw [aux_legacy_pollMany_et]
    rw [Legacy.MonitoredProcess.init, aux_legacy_poll_et]
  · show now - ((Legacy.MonitoredProcess.init start io_denied firstObs).pollMany obs).start = now - start
    rw [aux_legacy_pollMany_start]
    rw [Legacy.MonitoredProcess.init, aux_legacy_poll_start]

theorem aux_run_benchmark_stats (command : String) (a b : Bool) (timeout : Int)
    (ticks : List Tick) (tailOut tailErr : List String) (rc : Int) :
    (run_benchmark command a b timeout ticks tailOut tailErr rc).stats =
      applySaveFlags a b
        (classifyStep (executable_name command) rc
          { status := (runCapture timeout ticks tailOut tailErr).status
            stderr := some (runCapture timeout ticks tailOut tailErr).stderr
            stdout := some (runCapture timeout ticks tailOut tailErr).stdout }).stats := rfl

theorem aux_run_benchmark_invoked (command : String) (a b : Bool) (timeout : Int)
    (ticks : List Tick) (tailOut tailErr : List String) (rc : Int) :
    (run_benchmark command a b timeout ticks tailOut tailErr rc).invoked =
      (classifyStep (executable_name command) rc
        { status := (runCapture timeout ticks tailOut tailErr).status
          stderr := some (runCapture timeout ticks tailOut tailErr).stderr
          stdout := some (runCapture timeout ticks tailOut tailErr).stdout }).invoked := rfl

theorem aux_run_benchmark_warned (command : String) (a b : Bool) (timeout : Int)
    (ticks : List Tick) (tailOut tailErr : List String) (rc : Int) :
    (run_benchmark command a b timeout ticks tailOut tailErr rc).warned =
      (classifyStep (executable_name command) rc
        { status := (runCapture timeout ticks tailOut tailErr).status
          stderr := some (runCapture timeout ticks tailOut tailErr).stderr
          stdout := some (runCapture timeout ticks tailOut tailErr).stdout }).warned := rfl

theorem aux_classifier_no_supervisor (e : String)
    (f : Int → Option String → Option String → SATStatus)
    (hf : getOutputClassifier e = some f) (rc : Int) (out err : Option String) :
    f rc out err ≠ SATStatus.TIMEOUT ∧ f rc out err ≠ SATStatus.OUT_OF_MEMORY := by
  unfold getOutputClassifier at hf
  split_ifs at hf
  · injection hf with h
    subst h
    unfold prover9Verdict
    split_ifs <;> exact ⟨by decide, by decide⟩
  · injection hf with h
    subst h
    unfold spassVerdict
    split_ifs <;> exact ⟨by decide, by decide⟩
  · injection hf with h
    subst h
    unfold inkresatVerdict
    split_ifs <;> exact ⟨by decide, by decide⟩

theorem aux_classify_preempt (e : String) (rc : Int) (o : OutputStatistics)
    (h : o.status = SATStatus.OUT_OF_MEMORY ∨ o.status = SATStatus.TIMEOUT) :
    classifyStep e rc o = { stats := o, invoked := false, warned := false } := by
  unfold classifyStep
  rw [if_pos h]

theorem aux_classify_apply (e : String) (rc : Int) (o : OutputStatistics)
    (f : Int → Option String → Option String → SATStatus)
    (h : ¬(o.status = SATStatus.OUT_OF_MEMORY ∨ o.status = SATStatus.TIMEOUT))
    (hf : getOutputClassifier e = some f) :
    classifyStep e rc o =
      { stats := { o with status := f rc o.stdout o.stderr }
        invoked := true, warned := false } := by
  unfold classifyStep
  rw [if_neg h, hf]

theorem aux_classify_none (e : String) (rc : Int) (o : OutputStatistics)
    (h : ¬(o.status = SATStatus.OUT_OF_MEMORY ∨ o.status = SATStatus.TIMEOUT))
    (hn : getOutputClassifier e = none) :
    classifyStep e rc o = { stats := o, invoked := false, warned := true } := by
  unfold classifyStep
  rw [if_neg h, hn]

theorem aux_classify_status_timeout (e : String) (rc : Int) (o : OutputStatistics)
    (h : (classifyStep e rc o).stats.status = SATStatus.TIMEOUT) :
    o.status = SATStatus.TIMEOUT := by
  by_cases hc : o.status = SATStatus.OUT_OF_MEMORY ∨ o.status = SATStatus.TIMEOUT
  · rw [aux_classify_preempt e rc o hc] at h
    exact h
  · cases hf : getOutputClassifier e with
    | some f =>
      rw [aux_classify_apply e rc o f hc hf] at h
      exact absurd h (aux_classifier_no_supervisor e f hf rc o.stdout o.stderr).1
    | none =>
      rw [aux_classify_none e rc o hc hf] at h
      exact absurd (Or.inr h) hc

theorem aux_runLoop_timeout (timeout : Int) (pre : List Tick) :
    ∀ (t : Tick) (rest : List Tick) (s : LoopState),
      (∀ u ∈ pre, u.exited = false ∧ u.execTime ≤ timeout ∧ oomFloor ≤ u.freeMem) →
      t.exited = false → timeout < t.execTime →
      (runLoop timeout (pre ++ t :: rest) s).status = SATStatus.TIMEOUT ∧
        (runLoop timeout (pre ++ t :: rest) s).killed = true := by
  induction pre with
  | nil =>
    intro t rest s _ ht hcross
    simp [runLoop, ht, hcross]
  | cons u pre ih =>
    intro t rest s hpre ht hcross
    obtain ⟨hu1, hu2, hu3⟩ := hpre u (List.mem_cons_self u pre)
    have hpre2 : ∀ v ∈ pre, v.exited = false ∧ v.execTime ≤ timeout ∧ oomFloor ≤ v.freeMem :=
      fun v hv => hpre v (List.mem_cons_of_mem u hv)
    have h2 : ¬(timeout < u.execTime) := not_lt.mpr hu2
    have h3 : ¬(u.freeMem < oomFloor) := not_lt.mpr hu3
    by_cases hd : u.drainDue
    · simpa [runLoop, hu1, h2, h3, hd] using
        ih t rest (drainStep (tickArrive u s)) hpre2 ht hcross
    · simpa [runLoop, hu1, h2, h3, hd] using
        ih t rest (tickArrive u s) hpre2 ht hcross

theorem aux_runLoop_timeout_source (timeout : Int) (ticks : List Tick) :
    ∀ s : LoopState, (runLoop timeout ticks s).status = SATStatus.TIMEOUT →
      s.status = SATStatus.TIMEOUT ∨ ∃ u ∈ ticks, u.exited = false ∧ timeout < u.execTime := by
  induction ticks with
  | nil => intro s h; exact Or.inl h
  | cons t rest ih =>
    intro s h
    cases hE : t.exited with
    | true =>
      left
      have heq : runLoop timeout (t :: rest) s = tickArrive t s := by
        simp [runLoop, hE]
      rw [heq] at h
      exact h
    | false =>
      by_cases h2 : timeout < t.execTime
      · exact Or.inr ⟨t, List.mem_cons_self t rest, hE, h2⟩
      · by_cases h3 : t.freeMem < oomFloor
        · exfalso
          have heq : runLoop timeout (t :: rest) s =
              { tickArrive t s with status := SATStatus.OUT_OF_MEMORY, killed := true } := by
            simp [runLoop, hE, h2, h3]
          rw [heq] at h
          exact SATStatus.noConfusion h
        · by_cases h4 : t.drainDue
          · have heq : runLoop timeout (t :: rest) s =
                runLoop timeout rest (drainStep (tickArrive t s)) := by
              simp [runLoop, hE, h2, h3, h4]
            rw [heq] at h
            rcases ih (drainStep (tickArrive t s)) h with hs | ⟨u, hu, hp⟩
            · exact Or.inl hs
            · exact Or.inr ⟨u, List.mem_cons_of_mem t hu, hp⟩
          · have heq : runLoop timeout (t :: rest) s =
                runLoop timeout rest (tickArrive t s) := by
              simp [runLoop, hE, h2, h3, h4]
            rw [heq] at h
            rcases ih (tickArrive t s) h with hs | ⟨u, hu, hp⟩
            · exact Or.inl hs
            · exact Or.inr ⟨u, List.mem_cons_of_mem t hu, hp⟩

theorem aux_runLoop_status_cases (timeout : Int) (ticks : List Tick) :
    ∀ s : LoopState, (runLoop timeout ticks s).status = s.status ∨
      (runLoop timeout ticks s).status = SATStatus.TIMEOUT ∨
      (runLoop timeout ticks s).status = SATStatus.OUT_OF_MEMORY := by
  induction ticks with
  | nil => intro s; exact Or.inl rfl
  | cons t rest ih =>
    intro s
    cases hE : t.exited with
    | true =>
      left
      simp [runLoop, hE, tickArrive]
    | false =>
      by_cases h2 : timeout < t.execTime
      · right; left; simp [runLoop, hE, h2]
      · by_cases h3 : t.freeMem < oomFloor
        · right; right; simp [runLoop, hE, h2, h3]
        · by_cases h4 : t.drainDue
          · have heq : runLoop timeout (t :: rest) s =
                runLoop timeout rest (drainStep (tickArrive t s)) := by
              simp [runLoop, hE, h2, h3, h4]
            rw [heq]
            exact ih (drainStep (tickArrive t s))
          · have heq : runLoop timeout (t :: rest) s =
                runLoop timeout rest (tickArrive t s) := by
              simp [runLoop, hE, h2, h3, h4]
            rw [heq]
            exact ih (tickArrive t s)

/-- C2: in run_benchmark, if the polling loop reaches an iteration at which
the process is still alive and the elapsed execution time exceeds the
configured timeout (no earlier iteration having exited, crossed the timeout,
or hit the memory floor), then the process is killed and the final verdict
is TIMEOUT; conversely TIMEOUT is assigned only if some reached iteration
actually crossed the timeout threshold while the process was alive. -/
theorem run_benchmark_timeout_iff_crossed
    (command : String) (save_stdout save_stderr : Bool) (timeout : Int)
    (pre : List Tick) (t : Tick) (rest ticks : List Tick)
    (tailOut tailErr : List String) (returncode : Int) :
    ((∀ u ∈ pre, u.exited = false ∧ u.execTime ≤ timeout ∧ oomFloor ≤ u.freeMem) →
      t.exited = false → timeout < t.execTime →
      (run_benchmark command save_stdout save_stderr timeout (pre ++ t :: rest)
        tailOut tailErr returncode).stats.status = SATStatus.TIMEOUT ∧
      (run_benchmark command save_stdout save_stderr timeout (pre ++ t :: rest)
        tailOut tailErr returncode).capture.killed = true) ∧
    ((run_benchmark command save_stdout save_stderr timeout ticks
        tailOut tailErr returncode).stats.status = SATStatus.TIMEOUT →
      ∃ u ∈ ticks, u.exited = false ∧ timeout < u.execTime) := by
  constructor
  · intro hpre ht hcross
    obtain ⟨hst, hkill⟩ :=
      aux_runLoop_timeout timeout pre t rest initLoopState hpre ht hcross
    have hcap : (runCapture timeout (pre ++ t :: rest) tailOut tailErr).status =
        SATStatus.TIMEOUT := hst
    have hc := aux_classify_preempt (executable_name command) returncode
      { status := (runCapture timeout (pre ++ t :: rest) tailOut tailErr).status
        stderr := some (runCapture timeout (pre ++ t :: rest) tailOut tailErr).stderr
        stdout := some (runCapture timeout (pre ++ t :: rest) tailOut tailErr).stdout }
      (Or.inr hcap)
    constructor
    · rw [aux_run_benchmark_stats, hc, aux_applySaveFlags_status]
      exact hcap
    · exact hkill
  · intro h
    rw [aux_run_benchmark_stats, aux_applySaveFlags_status] at h
    have hcap := aux_classify_status_timeout _ _ _ h
    rcases aux_runLoop_timeout_source timeout ticks initLoopState hcap with hinit | hex
    · exact absurd hinit (by decide)
    · exact hex

theorem run_benchmark_timeout_iff_crossed_witness :
    ((run_benchmark ("./prover9") true true 1
        [{ exited := false, execTime := 2, freeMem := 8589934592, drainDue := false,
           newOut := [], newErr := [] }] [] [] 0).stats.status = SATStatus.TIMEOUT ∧
      (run_benchmark ("./prover9") true true 1
        [{ exited := false, execTime := 2, freeMem := 8589934592, drainDue := false,
           newOut := [], newErr := [] }] [] [] 0).capture.killed = true) ∧
    (∃ u ∈ [({ exited := false, execTime := 2, freeMem := 8589934592, drainDue := false,
               newOut := [], newErr := [] } : Tick)],
        u.exited = false ∧ (1 : Int) < u.execTime) := by
  have h := run_benchmark_timeout_iff_crossed ("./prover9") true true 1 []
    { exited := false, execTime := 2, freeMem := 8589934592, drainDue := false,
      newOut := [], newErr := [] } []
    [{ exited := false, execTime := 2, freeMem := 8589934592, drainDue := false,
       newOut := [], newErr := [] }] [] [] 0
  obtain ⟨h1, h2⟩ := h.1 (by simp) rfl (by decide)
  exact ⟨⟨h1, h2⟩, h.2 h1⟩

/-- C3: the supervisor statuses pre-empt classification in run_benchmark:
when the capture loop ends with status TIMEOUT or OUT_OF_MEMORY, the
classifier is never invoked and the final verdict stays fixed at that value;
on every other exit path with a registered classifier, the verdict is what
the classifier assigns from the exited process return code and the captured
stdout and stderr. -/
theorem run_benchmark_supervisor_preempts_classifier
    (command : String) (save_stdout save_stderr : Bool) (timeout : Int)
    (ticks : List Tick) (tailOut tailErr : List String) (returncode : Int)
    (ls : LoopState) (hls : ls = runCapture timeout ticks tailOut tailErr) :
    ((ls.status = SATStatus.TIMEOUT ∨ ls.status = SATStatus.OUT_OF_MEMORY) →
      (run_benchmark command save_stdout save_stderr timeout ticks
        tailOut tailErr returncode).stats.status = ls.status ∧
      (run_benchmark command save_stdout save_stderr timeout ticks
        tailOut tailErr returncode).invoked = false) ∧
    (∀ f, ¬(ls.status = SATStatus.TIMEOUT ∨ ls.status = SATStatus.OUT_OF_MEMORY) →
      getOutputClassifier (executable_name command) = some f →
      (run_benchmark command save_stdout save_stderr timeout ticks
        tailOut tailErr returncode).stats.status =
          f returncode (some ls.stdout) (some ls.stderr) ∧
      (run_benchmark command save_stdout save_stderr timeout ticks
        tailOut tailErr returncode).invoked = true) := by
  subst hls
  constructor
  · intro h
    have hc := aux_classify_preempt (executable_name command) returncode
      { status := (runCapture timeout ticks tailOut tailErr).status
        stderr := some (runCapture timeout ticks tailOut tailErr).stderr
        stdout := some (runCapture timeout ticks tailOut tailErr).stdout } h.symm
    constructor
    · rw [aux_run_benchmark_stats, hc, aux_applySaveFlags_status]
    · rw [aux_run_benchmark_invoked, hc]
  · intro f hn hf
    have hc := aux_classify_apply (executable_name command) returncode
      { status := (runCapture timeout ticks tailOut tailErr).status
        stderr := some (runCapture timeout ticks tailOut tailErr).stderr
        stdout := some (runCapture timeout ticks tailOut tailErr).stdout }
      f (fun hh => hn (Or.symm hh)) hf
    constructor
    · rw [aux_run_benchmark_stats, hc, aux_applySaveFlags_status]
    · rw [aux_run_benchmark_invoked, hc]

theorem run_benchmark_supervisor_preempts_classifier_witness :
    ((run_benchmark ("./prover9") true true 1
        [{ exited := false, execTime := 2, freeMem := 8589934592, drainDue := false,
           newOut := [], newErr := [] }] [] [] 0).stats.status =
       (runCapture 1
        [{ exited := false, execTime := 2, freeMem := 8589934592, drainDue := false,
           newOut := [], newErr := [] }] [] []).status ∧
      (run_benchmark ("./prover9") true true 1
        [{ exited := false, execTime := 2, freeMem := 8589934592, drainDue := false,
           newOut := [], newErr := [] }] [] [] 0).invoked = false) ∧
    ((run_benchmark ("./prover9") true true 5
        [{ exited := true, execTime := 0, freeMem := 8589934592, drainDue := false,
           newOut := [], newErr := [] }] [] [] 0).stats.status =
       prover9Verdict 0
         (some (runCapture 5
           [{ exited := true, execTime := 0, freeMem := 8589934592, drainDue := false,
              newOut := [], newErr := [] }] [] []).stdout)
         (some (runCapture 5
           [{ exited := true, execTime := 0, freeMem := 8589934592, drainDue := false,
              newOut := [], newErr := [] }] [] []).stderr) ∧
      (run_benchmark ("./prover9") true true 5
        [{ exited := true, execTime := 0, freeMem := 8589934592, drainDue := false,
           newOut := [], newErr := [] }] [] [] 0).invoked = true) := by
  constructor
  · exact (run_benchmark_supervisor_preempts_classifier ("./prover9") true true 1
      [{ exited := false, execTime := 2, freeMem := 8589934592, drainDue := false,
         newOut := [], newErr := [] }] [] [] 0 _ rfl).1 (by decide)
  · exact (run_benchmark_supervisor_preempts_classifier ("./prover9") true true 5
      [{ exited := true, execTime := 0, freeMem := 8589934592, drainDue := false,
         newOut := [], newErr := [] }] [] [] 0 _ rfl).2 prover9Verdict (by decide) rfl

/-- C4: when no output classifier is registered for the executable of a run
whose capture loop did not end in a supervisor status, run_benchmark still
returns a complete result: the verdict is the enumeration member UNKOWN, the
missing-classifier warning is logged, and the classifier is never invoked
(the lookup miss never raises). -/
theorem run_benchmark_missing_classifier_unknown
    (command : String) (save_stdout save_stderr : Bool) (timeout : Int)
    (ticks : List Tick) (tailOut tailErr : List String) (returncode : Int)
    (hnone : getOutputClassifier (executable_name command) = none)
    (hnt : (runCapture timeout ticks tailOut tailErr).status ≠ SATStatus.TIMEOUT)
    (hnm : (runCapture timeout ticks tailOut tailErr).status ≠ SATStatus.OUT_OF_MEMORY) :
    (run_benchmark command save_stdout save_stderr timeout ticks
      tailOut tailErr returncode).stats.status = SATStatus.UNKOWN ∧
    (run_benchmark command save_stdout save_stderr timeout ticks
      tailOut tailErr returncode).warned = true ∧
    (run_benchmark command save_stdout save_stderr timeout ticks
      tailOut tailErr returncode).invoked = false := by
  have hcap : (runCapture timeout ticks tailOut tailErr).status = SATStatus.UNKOWN := by
    rcases aux_runLoop_status_cases timeout ticks initLoopState with h | h | h
    · exact h
    · exact absurd h hnt
    · exact absurd h hnm
  have hc := aux_classify_none (executable_name command) returncode
    { status := (runCapture timeout ticks tailOut tailErr).status
      stderr := some (runCapture timeout ticks tailOut tailErr).stderr
      stdout := some (runCapture timeout ticks tailOut tailErr).stdout }
    (fun hh => hh.elim hnm hnt) hnone
  refine ⟨?_, ?_, ?_⟩
  · rw [aux_run_benchmark_stats, hc, aux_applySaveFlags_status]
    exact hcap
  · rw [aux_run_benchmark_warned, hc]
  · rw [aux_run_benchmark_invoked, hc]

theorem run_benchmark_missing_classifier_unknown_witness :
    (run_benchmark ("./mysolver a.p") true true 5
      [{ exited := true, execTime := 0, freeMem := 8589934592, drainDue := false,
         newOut := [], newErr := [] }] [] [] 0).stats.status = SATStatus.UNKOWN ∧
    (run_benchmark ("./mysolver a.p") true true 5
      [{ exited := true, execTime := 0, freeMem := 8589934592, drainDue := false,
         newOut := [], newErr := [] }] [] [] 0).warned = true ∧
    (run_benchmark ("./mysolver a.p") true true 5
      [{ exited := true, execTime := 0, freeMem := 8589934592, drainDue := false,
         newOut := [], newErr := [] }] [] [] 0).invoked = false :=
  run_benchmark_missing_classifier_unknown ("./mysolver a.p") true true 5
    [{ exited := true, execTime := 0, freeMem := 8589934592, drainDue := false,
       newOut := [], newErr := [] }] [] [] 0 rfl (by decide) (by decide)

/-- C1: the captured stdout of run_benchmark does NOT equal the
concatenation of all chunks the stdout reader ever returned, nor the full
stream the child wrote, once two in-loop drains both returned data: the
in-loop drain assigns instead of appending, so the chunk a drained first is
lost and only b plus the final drain survives (and likewise for stderr,
where x is lost and only y survives). -/
theorem run_benchmark_loop_drain_loses_output :
    (run_benchmark ("./prover9 f.p") true true 10
      [{ exited := false, execTime := 0, freeMem := 8589934592, drainDue := true,
         newOut := [("a")], newErr := [("x")] },
       { exited := false, execTime := 1, freeMem := 8589934592, drainDue := true,
         newOut := [("b")], newErr := [("y")] },
       { exited := true, execTime := 2, freeMem := 8589934592, drainDue := false,
         newOut := [], newErr := [] }] [] [] 0).stats.stdout = some ("b") ∧
    String.join (run_benchmark ("./prover9 f.p") true true 10
      [{ exited := false, execTime := 0, freeMem := 8589934592, drainDue := true,
         newOut := [("a")], newErr := [("x")] },
       { exited := false, execTime := 1, freeMem := 8589934592, drainDue := true,
         newOut := [("b")], newErr := [("y")] },
       { exited := true, execTime := 2, freeMem := 8589934592, drainDue := false,
         newOut := [], newErr := [] }] [] [] 0).capture.logOut = "ab" ∧
    String.join (run_benchmark ("./prover9 f.p") true true 10
      [{ exited := false, execTime := 0, freeMem := 8589934592, drainDue := true,
         newOut := [("a")], newErr := [("x")] },
       { exited := false, execTime := 1, freeMem := 8589934592, drainDue := true,
         newOut := [("b")], newErr := [("y")] },
       { exited := true, execTime := 2, freeMem := 8589934592, drainDue := false,
         newOut := [], newErr := [] }] [] [] 0).capture.arrOut = "ab" ∧
    (run_benchmark ("./prover9 f.p") true true 10
      [{ exited := false, execTime := 0, freeMem := 8589934592, drainDue := true,
         newOut := [("a")], newErr := [("x")] },
       { exited := false, execTime := 1, freeMem := 8589934592, drainDue := true,
         newOut := [("b")], newErr := [("y")] },
       { exited := true, execTime := 2, freeMem := 8589934592, drainDue := false,
         newOut := [], newErr := [] }] [] [] 0).stats.stderr = some ("y") ∧
    String.join (run_benchmark ("./prover9 f.p") true true 10
      [{ exited := false, execTime := 0, freeMem := 8589934592, drainDue := true,
         newOut := [("a")], newErr := [("x")] },
       { exited := false, execTime := 1, freeMem := 8589934592, drainDue := true,
         newOut := [("b")], newErr := [("y")] },
       { exited := true, execTime := 2, freeMem := 8589934592, drainDue := false,
         newOut := [], newErr := [] }] [] [] 0).capture.logErr = "xy" := by
  decide
